import Mathlib

set_option linter.unusedVariables false

/-!
# Verification of the registration / payment-approval workflow (`src/main.py`)

This file shallowly embeds the workflow engine of the Telegram registration
bot: the durable store (tables `users` and `payments`), the in-memory
`user_state` session map, and the event handlers `start`, `button_handler`
(split into its branches `onPackageChosen`, `onAccountSelected`, `onApprove`,
`onReject`, `onFinalizeRequested`), `handle_photo` and `handle_text`.

Conventions of the embedding:
* SQL rows become Lean structures; `NULL`-able columns are `Option` fields.
* Timestamps are abstract `Nat` values supplied by the caller (`now`).
* The `user_state` dict becomes an association list from chat id to `Session`.
* Each handler is a pure function from the pre-state (database, session map)
  and the event payload to an `Out` record holding the post-state, the
  messages sent to other actors (`sent`) and the texts shown to the invoking
  actor (`replies`, covering both `reply_text` and `edit_message_text`).
* Python truthiness tests (`if payment_id:`, `if not target:`) are modelled
  by explicit truthiness functions on `Option`.
* For `handle_photo` the flag `adminSendOk` says whether the
  `bot.send_photo` call to the administrator raises; the handler body is a
  `try` block, so a raise skips every later statement of the block.
-/

namespace Miamo

/-- The two values the code stores under the `"expecting"` key of
`user_state`: `"reg_screenshot"` for a user awaiting a screenshot upload and
`"user_credentials"` for the administrator awaiting a two-line credential
text. -/
inductive Expecting where
  | reg_screenshot
  | user_credentials
deriving DecidableEq

/-- One entry of the `user_state` dict.  A user entry carries
`payment_id`, the administrator entry carries `for_user`; absent dict keys
are `none`. -/
structure Session where
  expecting : Expecting
  payment_id : Option Nat
  for_user : Option Int
deriving DecidableEq

/-- A row of the `users` table (`chat_id` is the primary key).  `email` and
`phone` exist in the schema but are never written by the core. -/
structure UserRow where
  chat_id : Int
  username : String
  name : String
  email : Option String
  phone : Option String
  package : Option String
  payment_status : String
  approved_at : Option Nat
  registration_date : Option Nat
deriving DecidableEq

/-- A row of the `payments` table (`id` is the `SERIAL` primary key). -/
structure PaymentRow where
  id : Nat
  chat_id : Int
  package : Option String
  payment_account : String
  status : String
  timestamp : Nat
  approved_at : Option Nat
deriving DecidableEq

/-- The durable store: both tables plus the `SERIAL` counter feeding
`payments.id`. -/
structure DB where
  users : List UserRow
  payments : List PaymentRow
  nextPaymentId : Nat
deriving DecidableEq

/-- The empty store right after `CREATE TABLE`. -/
def DB.empty : DB := { users := [], payments := [], nextPaymentId := 1 }

/-- The in-memory `user_state` mapping, keyed by chat id. -/
abbrev SState := List (Int × Session)

/-- `user_state.get(k)` -/
def stGet (st : SState) (k : Int) : Option Session :=
  (st.find? (fun p => p.1 == k)).map (fun p => p.2)

/-- `user_state[k] = v` (overwrite-on-set) -/
def stSet (st : SState) (k : Int) (v : Session) : SState :=
  (st.filter (fun p => p.1 != k)) ++ [(k, v)]

/-- `user_state.pop(k, None)` -/
def stPop (st : SState) (k : Int) : SState :=
  st.filter (fun p => p.1 != k)

/-- Python truthiness of an optional integer id (`if payment_id:`):
`None` and `0` are falsy. -/
def optTruthyNat : Option Nat → Bool
  | none => false
  | some n => n != 0

/-- Python truthiness of an optional chat id (`if not target:`). -/
def optTruthyInt : Option Int → Bool
  | none => false
  | some n => n != 0

/-- Result of handling one inbound event. -/
structure Out where
  db : DB
  st : SState
  sent : List (Int × String)
  replies : List String
deriving DecidableEq

/-- The `PAYMENT_ACCOUNTS` catalogue. -/
def PAYMENT_ACCOUNTS : List (String × String) :=
  [("Bank A", "Account: 1234567890\nBank: Example Bank A\nName: Your Name"),
   ("Bank B", "Account: 0987654321\nBank: Example Bank B\nName: Your Name")]

def welcomeMsg : String :=
  "Welcome! Choose a package to register.\n\nWe have:\n• Standard (₦9,000)\n• X (₦14,000) — gives access to special content."

def packageChosenMsg (package : String) : String :=
  "You selected " ++ package ++ ". Choose a payment account and then upload your screenshot."

def paymentDetailsMsg (details : String) : String :=
  "Payment details:\n\n" ++ details ++ "\n\nPlease make the payment and upload the screenshot (as a photo) in this chat."

def approvedUserMsg : String :=
  "✅ Your payment has been approved by the admin. Await credentials to complete registration."

def approveAdminReply : String :=
  "Payment approved. Please finalize the user credentials using the button below."

def rejectedUserMsg : String :=
  "❌ Your payment was not approved. Please try again or contact the admin."

def rejectAdminReply : String := "Payment rejected and user notified."

def finalizePromptMsg (target : Int) : String :=
  "Send username and password for user " ++ toString target ++ " in two lines:\nusername\npassword"

def finalizeReply : String := "Waiting for admin to send credentials."

def noProcessMsg : String :=
  "No payment process detected. Start with /start to register."

def screenshotCaption (username : String) (uid : Int) : String :=
  "Payment screenshot from @" ++ username ++ " (chat_id: " ++ toString uid ++ ")"

def screenshotReceivedMsg : String :=
  "✅ Screenshot received! Admin will review and get back to you."

def photoErrorMsg : String := "Error processing screenshot. Try again later."

def twoLinesMsg : String :=
  "Please send credentials in two lines:\nusername\npassword"

def noTargetMsg : String :=
  "No target user set. Use the finalize button on a payment message."

def credsMsg (username password : String) : String :=
  "🎉 Registration complete!\nUsername: " ++ username ++ "\nPassword: " ++ password ++ "\n\nWelcome!"

def credsSetReply (target : Int) : String :=
  "Credentials set and sent to user " ++ toString target ++ "."

def fallbackMsg : String :=
  "I didn't understand that. Use /start to begin registration or /help for assistance."

/-- `start` (the `/start` command, the spec's `onEntry`): insert a minimal
user row if none exists for `chat_id`, then show the welcome menu. -/
def start (db : DB) (st : SState) (chat_id : Int) (username name : String) : Out :=
  if db.users.any (fun u => u.chat_id == chat_id) then
    { db := db, st := st, sent := [], replies := [welcomeMsg] }
  else
    { db := { db with users := db.users ++
        [{ chat_id := chat_id, username := username, name := name,
           email := none, phone := none, package := none,
           payment_status := "new", approved_at := none,
           registration_date := none }] },
      st := st, sent := [], replies := [welcomeMsg] }

/-- The `reg_standard` / `reg_x` branch of `button_handler` (the spec's
`onPackageChosen`), entered with `package` already resolved to `"Standard"`
or `"X"`: `UPDATE users SET package, payment_status='pending_payment'`, and
if no row matched, `INSERT` one. -/
def onPackageChosen (db : DB) (st : SState) (uid : Int) (package : String)
    (username name : String) : Out :=
  let matched := db.users.countP (fun u => u.chat_id == uid)
  let users1 := db.users.map (fun u =>
    if u.chat_id == uid then
      { u with package := some package, payment_status := "pending_payment" }
    else u)
  let users2 :=
    if matched == 0 then
      users1 ++ [{ chat_id := uid, username := username, name := name,
                   email := none, phone := none, package := some package,
                   payment_status := "pending_payment", approved_at := none,
                   registration_date := none }]
    else users1
  { db := { db with users := users2 }, st := st, sent := [],
    replies := [packageChosenMsg package] }

/-- The package of the user's row, as read by the `SELECT package FROM users`
in the `select_account` branch: `None` when there is no row and also when the
column is `NULL`. -/
def userPackage (db : DB) (uid : Int) : Option String :=
  match db.users.find? (fun u => u.chat_id == uid) with
  | some u => u.package
  | none => none

/-- The `select_account:` branch of `button_handler` (the spec's
`onAccountSelected`): insert a pending payment row carrying the user's
current package (possibly `NULL`), remember the expectation of a screenshot
in `user_state`, and show the payment details. -/
def onAccountSelected (db : DB) (st : SState) (uid : Int)
    (account_name : String) (now : Nat) : Out :=
  let details := (List.lookup account_name PAYMENT_ACCOUNTS).getD
    ("Contact admin for payment details.")
  let payment_id := db.nextPaymentId
  let row : PaymentRow :=
    { id := payment_id, chat_id := uid, package := userPackage db uid,
      payment_account := account_name, status := "pending",
      timestamp := now, approved_at := none }
  { db := { db with
      payments := db.payments ++ [row],
      nextPaymentId := payment_id + 1 },
    st := stSet st uid
      { expecting := Expecting.reg_screenshot, payment_id := some payment_id,
        for_user := none },
    sent := [], replies := [paymentDetailsMsg details] }

/-- The `approve_reg_` branch of `button_handler` (the spec's `onApprove`),
with the callback payload already parsed into `target_chat` and the optional
`payment_id`.  The sender of the callback (`sender`) is never consulted by
the branch. -/
def onApprove (db : DB) (st : SState) (sender target_chat : Int)
    (payment_id : Option Nat) (now : Nat) : Out :=
  let payments1 :=
    if optTruthyNat payment_id then
      db.payments.map (fun p =>
        if some p.id == payment_id then
          { p with status := "approved", approved_at := some now }
        else p)
    else db.payments
  let users1 := db.users.map (fun u =>
    if u.chat_id == target_chat then
      { u with payment_status := "approved", approved_at := some now }
    else u)
  { db := { db with payments := payments1, users := users1 }, st := st,
    sent := [(target_chat, approvedUserMsg)],
    replies := [approveAdminReply] }

/-- The `reject_reg_` branch of `button_handler` (the spec's `onReject`):
mark the payment rejected (when an id is present) and reset the target
user's `payment_status` to `"new"`.  The sender is never consulted. -/
def onReject (db : DB) (st : SState) (sender target_chat : Int)
    (payment_id : Option Nat) : Out :=
  let payments1 :=
    if optTruthyNat payment_id then
      db.payments.map (fun p =>
        if some p.id == payment_id then { p with status := "rejected" } else p)
    else db.payments
  let users1 := db.users.map (fun u =>
    if u.chat_id == target_chat then { u with payment_status := "new" } else u)
  { db := { db with payments := payments1, users := users1 }, st := st,
    sent := [(target_chat, rejectedUserMsg)],
    replies := [rejectAdminReply] }

/-- The `finalize_reg_` branch of `button_handler` (the spec's
`onFinalizeRequested`): record in `user_state[ADMIN_ID]` that the next admin
text is a credential pair for `target_chat`.  No durable write; the sender
is never consulted. -/
def onFinalizeRequested (db : DB) (st : SState)
    (ADMIN_ID sender target_chat : Int) : Out :=
  { db := db,
    st := stSet st ADMIN_ID
      { expecting := Expecting.user_credentials, payment_id := none,
        for_user := some target_chat },
    sent := [(ADMIN_ID, finalizePromptMsg target_chat)],
    replies := [finalizeReply] }

/-- Does `user_state` hold a session for `uid` whose `"expecting"` value is
`"reg_screenshot"`?  (`user_state.get(uid, {}).get("expecting") ==
"reg_screenshot"`.) -/
def sessionExpectsScreenshot (st : SState) (uid : Int) : Bool :=
  match stGet st uid with
  | some s => s.expecting == Expecting.reg_screenshot
  | none => false

/-- `handle_photo` (the spec's `onScreenshotSubmitted`).  Without a session
expecting `reg_screenshot` the handler only replies `noProcessMsg`.  With
a matching session the body is a `try` block that first forwards the photo
to the administrator, then replies to the user, then writes
`payment_status='pending_approval'` and clears the session; when the forward
raises (`adminSendOk = false`) the `except` branch replies `photoErrorMsg`
and every later statement of the block — the durable write and the session
pop included — is skipped. -/
def handle_photo (ADMIN_ID : Int) (db : DB) (st : SState) (uid : Int)
    (username : String) (adminSendOk : Bool) : Out :=
  if !(sessionExpectsScreenshot st uid) then
    { db := db, st := st, sent := [], replies := [noProcessMsg] }
  else if adminSendOk then
    { db := { db with users := db.users.map (fun u =>
        if u.chat_id == uid then { u with payment_status := "pending_approval" }
        else u) },
      st := stPop st uid,
      sent := [(ADMIN_ID, screenshotCaption username uid)],
      replies := [screenshotReceivedMsg] }
  else
    { db := db, st := st, sent := [], replies := [photoErrorMsg] }

/-- Python's `str.strip()` on the character list: drop whitespace from both
ends. -/
def stripChars (l : List Char) : List Char :=
  ((l.dropWhile Char.isWhitespace).reverse.dropWhile Char.isWhitespace).reverse

/-- Python's `str.strip()`. -/
def pyStrip (s : String) : String := String.mk (stripChars s.data)

/-- Split a character list at newline characters (Python's
`str.splitlines()` for `\n`-separated text). -/
def splitNLAux : List Char → List Char → List (List Char)
  | [], acc => [acc.reverse]
  | c :: rest, acc =>
    if c = '\n' then acc.reverse :: splitNLAux rest []
    else splitNLAux rest (c :: acc)

/-- The credential text split of `handle_text`:
`[l.strip() for l in text.splitlines() if l.strip()]`. -/
def splitLines (text : String) : List String :=
  ((splitNLAux text.data []).map (fun l => String.mk (stripChars l))).filter
    (fun l => l != "")

/-- `handle_text` (the spec's `onCredentialsSubmitted` plus the fallback
reply).  The admin-credential flow runs only when the sender is the
administrator and `user_state[ADMIN_ID]` expects `user_credentials`; it
validates that the text has at least two non-empty lines, requires a truthy
`for_user` target, and on success registers the target user, approves the
target's still-pending payments, clears the admin session and sends the
credentials to the target. -/
def handle_text (ADMIN_ID : Int) (db : DB) (st : SState) (uid : Int)
    (rawText : String) (now : Nat) : Out :=
  let text := pyStrip rawText
  let fallback : Out := { db := db, st := st, sent := [], replies := [fallbackMsg] }
  match stGet st ADMIN_ID with
  | none => fallback
  | some s =>
    if uid == ADMIN_ID && s.expecting == Expecting.user_credentials then
      let lines := splitLines text
      if lines.length < 2 then
        { db := db, st := st, sent := [], replies := [twoLinesMsg] }
      else
        let username := lines.headD ("")
        let password := (lines.drop 1).headD ("")
        if !(optTruthyInt s.for_user) then
          { db := db, st := stPop st ADMIN_ID, sent := [],
            replies := [noTargetMsg] }
        else
          let target := s.for_user.getD 0
          let users1 := db.users.map (fun u =>
            if u.chat_id == target then
              { u with
                username := username,
                payment_status := "registered",
                registration_date := some now }
            else u)
          let payments1 := db.payments.map (fun p =>
            if p.chat_id == target && p.status == "pending" then
              { p with status := "approved", approved_at := some now }
            else p)
          { db := { db with users := users1, payments := payments1 },
            st := stPop st ADMIN_ID,
            sent := [(target, credsMsg username password)],
            replies := [credsSetReply target] }
    else fallback

/-- Rank of a `payment_status` value along the spec's order
`new → pending_payment → pending_approval → approved → registered`. -/
def statusRank (s : String) : Nat :=
  if s = "pending_payment" then 1
  else if s = "pending_approval" then 2
  else if s = "approved" then 3
  else if s = "registered" then 4
  else 0

/-- `noRegress old new` says every user row of `old` is matched in `new` by
a row of the same chat id whose `payment_status` rank is at least as high. -/
def noRegress (old new : List UserRow) : Bool :=
  old.all (fun u => new.any (fun v =>
    v.chat_id == u.chat_id &&
    decide (statusRank u.payment_status ≤ statusRank v.payment_status)))

/-- `strContains s pat` holds when `pat` occurs inside `s`. -/
def strContains (s pat : String) : Prop := ∃ a b, s = a ++ pat ++ b

/-- Fixture: a user awaiting approval, owner of payment attempt 1. -/
def uC1 : UserRow :=
  { chat_id := 5,
    username := "",
    name := "",
    email := none,
    phone := none,
    package := some ("Standard"),
    payment_status := "pending_approval",
    approved_at := none,
    registration_date := none }

/-- Fixture: the pending payment attempt of `uC1`. -/
def pC1 : PaymentRow :=
  { id := 1,
    chat_id := 5,
    package := some ("Standard"),
    payment_account := "Bank A",
    status := "pending",
    timestamp := 0,
    approved_at := none }

/-- Fixture store for the authorization scenario. -/
def dbC1 : DB := { users := [uC1], payments := [pC1], nextPaymentId := 2 }

/-- Fixture: a pending payment attempt owned by actor 7. -/
def pC2 : PaymentRow :=
  { id := 1,
    chat_id := 7,
    package := some ("Standard"),
    payment_account := "Bank A",
    status := "pending",
    timestamp := 0,
    approved_at := none }

/-- Fixture store for the cross-actor approval scenario. -/
def dbC2 : DB := { users := [], payments := [pC2], nextPaymentId := 2 }

/-- Fixture: a fully registered user. -/
def uC3 : UserRow :=
  { chat_id := 5,
    username := "alice",
    name := "",
    email := none,
    phone := none,
    package := some ("Standard"),
    payment_status := "registered",
    approved_at := some 1,
    registration_date := some 2 }

/-- Fixture store for the regression scenario. -/
def dbC3 : DB := { users := [uC3], payments := [], nextPaymentId := 1 }

/-- Fixture: a user mid-payment, before uploading the screenshot. -/
def uC6 : UserRow :=
  { chat_id := 5,
    username := "",
    name := "",
    email := none,
    phone := none,
    package := some ("Standard"),
    payment_status := "pending_payment",
    approved_at := none,
    registration_date := none }

/-- Fixture: the pending payment attempt of `uC6`. -/
def pC6 : PaymentRow :=
  { id := 1,
    chat_id := 5,
    package := some ("Standard"),
    payment_account := "Bank A",
    status := "pending",
    timestamp := 0,
    approved_at := none }

/-- Fixture store for the failed-notification scenario. -/
def dbC6 : DB := { users := [uC6], payments := [pC6], nextPaymentId := 2 }

/-- Fixture session map: actor 5 is awaiting a screenshot for attempt 1. -/
def stC6 : SState :=
  [(5, { expecting := Expecting.reg_screenshot, payment_id := some 1,
         for_user := none })]

/-- Step 1 of the end-to-end sequence: `/start` by actor 5. -/
def c5_o1 : Out := start DB.empty [] 5 "" ""

/-- Step 2: actor 5 chooses the `Standard` package. -/
def c5_o2 : Out := onPackageChosen c5_o1.db c5_o1.st 5 "Standard" "" ""

/-- Step 3: actor 5 selects `Bank A`. -/
def c5_o3 : Out := onAccountSelected c5_o2.db c5_o2.st 5 "Bank A" 10

/-- Step 4: actor 5 uploads the screenshot (administrator is actor 1). -/
def c5_o4 : Out := handle_photo 1 c5_o3.db c5_o3.st 5 "" true

/-- Step 5: the administrator approves attempt 1 for actor 5. -/
def c5_o5 : Out := onApprove c5_o4.db c5_o4.st 1 5 (some 1) 11

/-- Step 6: the administrator presses the finalize button for actor 5. -/
def c5_o6 : Out := onFinalizeRequested c5_o5.db c5_o5.st 1 1 5

/-- Step 7: the administrator sends the two-line credential text. -/
def c5_o7 : Out := handle_text 1 c5_o6.db c5_o6.st 1 "alice\nSecret1" 12

/-- The credential text sent right after the approval, with no finalize
button press in between. -/
def c5_bad : Out := handle_text 1 c5_o5.db c5_o5.st 1 "alice\nSecret1" 12

/-- Fixture admin session awaiting credentials for target actor 5. -/
def sessW8 : Session :=
  { expecting := Expecting.user_credentials, payment_id := none,
    for_user := some 5 }

/-- Fixture admin session awaiting credentials with no target recorded. -/
def sessW10 : Session :=
  { expecting := Expecting.user_credentials, payment_id := none,
    for_user := none }

/-! ## Helper lemmas -/

theorem statusRank_le_four (s : String) : statusRank s ≤ 4 := by
  unfold statusRank
  repeat' split
  all_goals omega

theorem find?_filter_ne (st : SState) (k : Int) :
    (st.filter (fun p => p.1 != k)).find? (fun p => p.1 == k) = none := by
  apply List.find?_eq_none.mpr
  intro x hx
  simpa using (List.mem_filter.mp hx).2

theorem stGet_stSet_self (st : SState) (k : Int) (v : Session) :
    stGet (stSet st k v) k = some v := by
  simp [stGet, stSet, List.find?_append, find?_filter_ne]

theorem stGet_stPop_self (st : SState) (k : Int) :
    stGet (stPop st k) k = none := by
  simp [stGet, stPop, find?_filter_ne]

theorem noRegress_refl (l : List UserRow) : noRegress l l = true := by
  simp only [noRegress, List.all_eq_true, List.any_eq_true]
  intro u hu
  exact ⟨u, hu, by simp⟩

theorem noRegress_append (l l2 m : List UserRow) (h : noRegress l l2 = true) :
    noRegress l (l2 ++ m) = true := by
  simp only [noRegress, List.all_eq_true, List.any_eq_true] at h ⊢
  intro u hu
  obtain ⟨v, hv, hp⟩ := h u hu
  exact ⟨v, List.mem_append_left _ hv, hp⟩

theorem noRegress_map (l : List UserRow) (f : UserRow → UserRow)
    (hc : ∀ u, (f u).chat_id = u.chat_id)
    (hr : ∀ u, statusRank u.payment_status ≤ statusRank (f u).payment_status) :
    noRegress l (l.map f) = true := by
  simp only [noRegress, List.all_eq_true, List.any_eq_true]
  intro u hu
  refine ⟨f u, List.mem_map_of_mem f hu, ?_⟩
  simp [hc u, hr u]

theorem all_map_of_pointwise (l : List UserRow) (f : UserRow → UserRow)
    (q : UserRow → Bool) (h : ∀ u, q (f u) = true) :
    (l.map f).all q = true := by
  simp only [List.all_eq_true]
  intro x hx
  obtain ⟨u, _, rfl⟩ := List.mem_map.mp hx
  exact h u

/-! ## Claim theorems -/

/-- C1, counterexample: the claim that an admin-only transition invoked by a
non-administrator leaves durable state unchanged is false — with the
administrator being actor 1, actor 999 invoking the approve transition
changes the store. -/
theorem C1_counterexample :
    (999 : Int) ≠ 1 ∧ (onApprove dbC1 [] 999 5 (some 1) 7).db ≠ dbC1 := by
  decide

/-- C1, amended: `button_handler` performs no authorization check on the
approve, reject and finalize branches — their result is completely
independent of the invoking actor id, so a non-administrator mutates
durable state exactly as the administrator would. -/
theorem C1_no_sender_check :
    (∀ (db : DB) (st : SState) (a b target : Int) (pid : Option Nat) (now : Nat),
        onApprove db st a target pid now = onApprove db st b target pid now) ∧
    (∀ (db : DB) (st : SState) (a b target : Int) (pid : Option Nat),
        onReject db st a target pid = onReject db st b target pid) ∧
    (∀ (db : DB) (st : SState) (A a b target : Int),
        onFinalizeRequested db st A a target = onFinalizeRequested db st A b target) :=
  ⟨fun _ _ _ _ _ _ _ => rfl, fun _ _ _ _ _ _ => rfl, fun _ _ _ _ _ _ => rfl⟩

/-- C2, counterexample: the claim that `onApprove` never approves a payment
attempt owned by an actor other than the event's target is false — attempt 1
is owned by actor 7, yet approving it with target actor 5 marks it
approved. -/
theorem C2_counterexample :
    (7 : Int) ≠ 5 ∧
    (onApprove dbC2 [] 1 5 (some 1) 9).db.payments.map
        (fun p => (p.chat_id, p.status)) = [((7 : Int), ("approved" : String))] := by
  decide

/-- C2, amended: the payments update of `onApprove` selects the row by
payment id only and never consults the target actor — the resulting
payments table is identical for every target. -/
theorem C2_payments_update_ignores_target :
    ∀ (db : DB) (st : SState) (s t1 t2 : Int) (pid : Option Nat) (now : Nat),
      (onApprove db st s t1 pid now).db.payments =
        (onApprove db st s t2 pid now).db.payments :=
  fun _ _ _ _ _ _ _ => rfl

/-- C3, counterexample: the claim that `payment_status` never regresses
except via `onReject` is false — a user with status `registered` who chooses
a package again drops back to `pending_payment`. -/
theorem C3_counterexample :
    noRegress dbC3.users (onPackageChosen dbC3 [] 5 ("Standard") "" "").db.users = false ∧
    (onPackageChosen dbC3 [] 5 ("Standard") "" "").db.users.map
        (fun u => u.payment_status) = ["pending_payment"] := by
  decide

/-- C3, amended: `payment_status` never regresses under `start`,
`onAccountSelected`, `onFinalizeRequested` and `handle_text`; but
`onPackageChosen`, `onApprove` and `onReject` overwrite the status of the
addressed user with a fixed value (`pending_payment`, `approved`, `new`)
regardless of the previous status, and `handle_photo` either leaves the
store unchanged or overwrites the sender's status with `pending_approval`,
so each of these four transitions can regress it. -/
theorem C3_monotonicity_by_operation :
    (∀ (db : DB) (st : SState) (uid : Int) (acct : String) (now : Nat),
        (onAccountSelected db st uid acct now).db.users = db.users) ∧
    (∀ (db : DB) (st : SState) (A s t : Int),
        (onFinalizeRequested db st A s t).db = db) ∧
    (∀ (db : DB) (st : SState) (c : Int) (un nm : String),
        noRegress db.users (start db st c un nm).db.users = true) ∧
    (∀ (A : Int) (db : DB) (st : SState) (uid : Int) (txt : String) (now : Nat),
        noRegress db.users (handle_text A db st uid txt now).db.users = true) ∧
    (∀ (db : DB) (st : SState) (uid : Int) (pkg un nm : String),
        ((onPackageChosen db st uid pkg un nm).db.users).all
          (fun u => (u.chat_id != uid) || (u.payment_status == "pending_payment")) = true) ∧
    (∀ (db : DB) (st : SState) (s t : Int) (pid : Option Nat) (now : Nat),
        ((onApprove db st s t pid now).db.users).all
          (fun u => (u.chat_id != t) || (u.payment_status == "approved")) = true) ∧
    (∀ (db : DB) (st : SState) (s t : Int) (pid : Option Nat),
        ((onReject db st s t pid).db.users).all
          (fun u => (u.chat_id != t) || (u.payment_status == "new")) = true) ∧
    (∀ (A : Int) (db : DB) (st : SState) (uid : Int) (un : String) (ok : Bool),
        (handle_photo A db st uid un ok).db = db ∨
        ((handle_photo A db st uid un ok).db.users).all
          (fun u => (u.chat_id != uid) || (u.payment_status == "pending_approval")) = true) := by
  refine ⟨?_, ?_, ?_, ?_, ?_, ?_, ?_, ?_⟩
  · intro db st uid acct now
    rfl
  · intro db st A s t
    rfl
  · intro db st c un nm
    unfold start
    split
    · exact noRegress_refl db.users
    · exact noRegress_append _ _ _ (noRegress_refl db.users)
  · intro A db st uid txt now
    unfold handle_text
    cases h : stGet st A with
    | none => exact noRegress_refl db.users
    | some s =>
      simp only []
      split
      · split
        · exact noRegress_refl db.users
        · split
          · exact noRegress_refl db.users
          · apply noRegress_map
            · intro u
              split <;> rfl
            · intro u
              split
              · simpa [statusRank] using statusRank_le_four u.payment_status
              · exact Nat.le_refl _
      · exact noRegress_refl db.users
  · intro db st uid pkg un nm
    unfold onPackageChosen
    simp only []
    split
    · rw [List.all_append]
      simp only [Bool.and_eq_true]
      constructor
      · apply all_map_of_pointwise
        intro u
        by_cases h : u.chat_id = uid <;> simp [h]
      · simp
    · apply all_map_of_pointwise
      intro u
      by_cases h : u.chat_id = uid <;> simp [h]
  · intro db st s t pid now
    apply all_map_of_pointwise
    intro u
    by_cases h : u.chat_id = t <;> simp [h]
  · intro db st s t pid
    apply all_map_of_pointwise
    intro u
    by_cases h : u.chat_id = t <;> simp [h]
  · intro A db st uid un ok
    unfold handle_photo
    split
    · left
      rfl
    · split
      · right
        apply all_map_of_pointwise
        intro u
        by_cases h : u.chat_id = uid <;> simp [h]
      · left
        rfl

/-- C4, counterexample: the claim that `onAccountSelected` for an actor with
no user row reports "no active registration" and creates no payment attempt
is false — starting from the empty store it creates a payment row and
replies with the payment details. -/
theorem C4_counterexample :
    DB.empty.users = [] ∧
    (onAccountSelected DB.empty [] 5 ("Bank A") 3).db.payments.length = 1 ∧
    (onAccountSelected DB.empty [] 5 ("Bank A") 3).replies =
      [paymentDetailsMsg ("Account: 1234567890\nBank: Example Bank A\nName: Your Name")] := by
  decide

/-- C4, amended: `onAccountSelected` never checks for an existing user or a
chosen package — it always appends a fresh pending payment attempt (whose
package is the user's current one, `NULL` when there is no row), always
opens the screenshot session, and leaves the users table unchanged. -/
theorem C4_always_creates_attempt :
    ∀ (db : DB) (st : SState) (uid : Int) (acct : String) (now : Nat),
      (onAccountSelected db st uid acct now).db.payments =
        db.payments ++
          [{ id := db.nextPaymentId,
             chat_id := uid,
             package := userPackage db uid,
             payment_account := acct,
             status := "pending",
             timestamp := now,
             approved_at := none }] ∧
      stGet (onAccountSelected db st uid acct now).st uid =
        some { expecting := Expecting.reg_screenshot,
               payment_id := some db.nextPaymentId, for_user := none } ∧
      (onAccountSelected db st uid acct now).db.users = db.users := by
  intro db st uid acct now
  exact ⟨rfl, stGet_stSet_self st uid _, rfl⟩

/-- C5, counterexample: the claim's six-step sequence (with no
`onFinalizeRequested` between the approval and the credential text) is false
— the credential text falls through to the fallback reply, the user keeps
status `approved`, the username stays empty and no credentials are sent. -/
theorem C5_counterexample :
    c5_bad.db.users.map (fun u => (u.username, u.payment_status)) =
      [(("" : String), ("approved" : String))] ∧
    c5_bad.replies = [fallbackMsg] ∧ c5_bad.sent = [] := by
  decide

/-- C5, amended: with `onFinalizeRequested` inserted between the approval
and the credential text, the sequence from the empty store yields
`payment_status = "registered"`, `username = "alice"`, exactly one payment
attempt (for actor 5, status `approved`), and a credentials message to the
actor containing both "alice" and "Secret1". -/
theorem C5_happy_path_with_finalize :
    c5_o7.db.users.map (fun u => (u.chat_id, u.username, u.payment_status)) =
      [((5 : Int), ("alice" : String), ("registered" : String))] ∧
    c5_o7.db.payments.map (fun p => (p.chat_id, p.status)) =
      [((5 : Int), ("approved" : String))] ∧
    c5_o7.sent = [(5, credsMsg ("alice") ("Secret1"))] ∧
    strContains (credsMsg ("alice") ("Secret1")) ("alice") ∧
    strContains (credsMsg ("alice") ("Secret1")) ("Secret1") := by
  refine ⟨by decide, by decide, by decide, ?_, ?_⟩
  · exact ⟨"🎉 Registration complete!\nUsername: ",
      "\nPassword: Secret1\n\nWelcome!", by decide⟩
  · exact ⟨"🎉 Registration complete!\nUsername: alice\nPassword: ",
      "\n\nWelcome!", by decide⟩

/-- C6, counterexample: the claim that after `onScreenshotSubmitted` with a
matching session the status becomes `pending_approval` even when the admin
notification fails is false — the notification is attempted before the
durable write, so when it fails the status stays `pending_payment` and the
handler reports an error. -/
theorem C6_counterexample :
    sessionExpectsScreenshot stC6 5 = true ∧
    (handle_photo 1 dbC6 stC6 5 "" false).db = dbC6 ∧
    (handle_photo 1 dbC6 stC6 5 "" false).db.users.map (fun u => u.payment_status) =
      ["pending_payment"] ∧
    (handle_photo 1 dbC6 stC6 5 "" false).replies = [photoErrorMsg] := by
  decide

/-- C6, amended: in `handle_photo` the admin notification precedes the
durable write — with a matching session, a failed notification leaves the
store and the session untouched and sends nothing, while a successful one
commits `pending_approval` for the sender and clears the session. -/
theorem C6_failed_notify_skips_write :
    ∀ (A : Int) (db : DB) (st : SState) (uid : Int) (un : String),
      sessionExpectsScreenshot st uid = true →
      ((handle_photo A db st uid un false).db = db ∧
       (handle_photo A db st uid un false).st = st ∧
       (handle_photo A db st uid un false).sent = [] ∧
       ((handle_photo A db st uid un true).db.users).all
         (fun u => (u.chat_id != uid) || (u.payment_status == "pending_approval")) = true ∧
       stGet (handle_photo A db st uid un true).st uid = none) := by
  intro A db st uid un h
  have hfalse : handle_photo A db st uid un false =
      { db := db, st := st, sent := [], replies := [photoErrorMsg] } := by
    unfold handle_photo
    rw [h]
    rfl
  have htrue : handle_photo A db st uid un true =
      { db := { db with users := db.users.map (fun u =>
          if u.chat_id == uid then { u with payment_status := "pending_approval" }
          else u) },
        st := stPop st uid,
        sent := [(A, screenshotCaption un uid)],
        replies := [screenshotReceivedMsg] } := by
    unfold handle_photo
    rw [h]
    rfl
  rw [hfalse, htrue]
  refine ⟨rfl, rfl, rfl, ?_, stGet_stPop_self st uid⟩
  apply all_map_of_pointwise
  intro u
  by_cases hc : u.chat_id = uid <;> simp [hc]

/-- C6, witness: with actor 5 holding a screenshot session and the admin
notification failing, the store is unchanged. -/
theorem C6_witness :
    (handle_photo 1 dbC6 stC6 5 "" false).db = dbC6 :=
  (C6_failed_notify_skips_write 1 dbC6 stC6 5 "" (by decide)).1

/-- C7: when the sender's session does not expect `reg_screenshot`
(including when there is no session at all), `handle_photo` replies with the
"no active process" message and changes neither the store nor the sessions,
and sends nothing. -/
theorem C7_no_session_no_change :
    ∀ (A : Int) (db : DB) (st : SState) (uid : Int) (un : String) (ok : Bool),
      sessionExpectsScreenshot st uid = false →
      handle_photo A db st uid un ok =
        { db := db, st := st, sent := [], replies := [noProcessMsg] } := by
  intro A db st uid un ok h
  unfold handle_photo
  rw [h]
  rfl

/-- C7, witness: a photo from actor 5 with an empty session map leaves the
empty store unchanged and yields only the "no active process" reply. -/
theorem C7_witness :
    handle_photo 1 DB.empty [] 5 "" true =
      { db := DB.empty, st := [], sent := [], replies := [noProcessMsg] } :=
  C7_no_session_no_change 1 DB.empty [] 5 "" true (by decide)

/-- C8: when the administrator's session awaits credentials and the text has
fewer than two non-empty lines, `handle_text` replies with the validation
notice, performs no durable write, sends nothing, and leaves the session map
— hence the session and its target — exactly as it was. -/
theorem C8_short_credentials_keep_session :
    ∀ (A : Int) (db : DB) (st : SState) (s : Session) (txt : String) (now : Nat),
      stGet st A = some s →
      s.expecting = Expecting.user_credentials →
      (splitLines (pyStrip txt)).length < 2 →
      handle_text A db st A txt now =
        { db := db, st := st, sent := [], replies := [twoLinesMsg] } := by
  intro A db st s txt now hget hexp hlen
  unfold handle_text
  rw [hget]
  simp only [hexp, beq_self_eq_true, Bool.and_self, if_true]
  rw [if_pos hlen]

/-- C8, witness: a one-line credential text from the administrator leaves
the store and the admin session untouched and draws the validation
notice. -/
theorem C8_witness :
    handle_text 1 DB.empty [(1, sessW8)] 1 "alice" 3 =
      { db := DB.empty, st := [(1, sessW8)], sent := [],
        replies := [twoLinesMsg] } :=
  C8_short_credentials_keep_session 1 DB.empty [(1, sessW8)] sessW8 "alice" 3
    (by decide) (by decide) (by decide)

/-- C9: `start` is idempotent — a second call never changes the store, and
after a call the number of user rows for the actor is exactly one when there
was none before (and in general `max` of the previous count and one, so no
duplicate row is ever created). -/
theorem C9_start_idempotent :
    ∀ (db : DB) (st : SState) (c : Int) (un nm : String),
      (start (start db st c un nm).db (start db st c un nm).st c un nm).db =
        (start db st c un nm).db ∧
      (start db st c un nm).db.users.countP (fun u => u.chat_id == c) =
        max (db.users.countP (fun u => u.chat_id == c)) 1 := by
  intro db st c un nm
  have hstep : ∀ (d : DB) (s2 : SState),
      (d.users.any fun u => u.chat_id == c) = true →
      (start d s2 c un nm).db = d := by
    intro d s2 hd
    unfold start
    rw [if_pos hd]
  have hafter : ((start db st c un nm).db.users.any fun u => u.chat_id == c) = true := by
    unfold start
    by_cases h : (db.users.any fun u => u.chat_id == c) = true
    · rw [if_pos h]
      exact h
    · rw [if_neg h]
      simp
  refine ⟨hstep _ _ hafter, ?_⟩
  by_cases h : (db.users.any fun u => u.chat_id == c) = true
  · rw [hstep db st h]
    have hpos : 0 < db.users.countP (fun u => u.chat_id == c) := by
      rw [List.countP_pos_iff]
      simpa [List.any_eq_true] using h
    omega
  · have h0 : db.users.countP (fun u => u.chat_id == c) = 0 := by
      rw [List.countP_eq_zero]
      intro a ha hC
      exact h (List.any_eq_true.mpr ⟨a, ha, hC⟩)
    unfold start
    rw [if_neg h]
    simp [h0, List.countP_append, List.countP_cons]

/-- C10: when the administrator's session awaits credentials but records no
target actor, a valid two-line credential text performs no durable write,
draws the guidance reply, sends nothing to any actor, and clears the
administrator's session. -/
theorem C10_missing_target_clears_session :
    ∀ (A : Int) (db : DB) (st : SState) (s : Session) (txt : String) (now : Nat),
      stGet st A = some s →
      s.expecting = Expecting.user_credentials →
      s.for_user = none →
      2 ≤ (splitLines (pyStrip txt)).length →
      handle_text A db st A txt now =
        { db := db, st := stPop st A, sent := [], replies := [noTargetMsg] } ∧
      stGet (handle_text A db st A txt now).st A = none := by
  intro A db st s txt now hget hexp htgt hlen
  have hmain : handle_text A db st A txt now =
      { db := db, st := stPop st A, sent := [], replies := [noTargetMsg] } := by
    unfold handle_text
    rw [hget]
    simp only [hexp, beq_self_eq_true, Bool.and_self, if_true]
    rw [if_neg (by omega)]
    simp [htgt, optTruthyInt]
  refine ⟨hmain, ?_⟩
  rw [hmain]
  exact stGet_stPop_self st A

/-- C10, witness: a two-line credential text while the admin session has no
recorded target leaves the store unchanged, clears the session and draws
the guidance reply. -/
theorem C10_witness :
    handle_text 1 DB.empty [(1, sessW10)] 1 "alice\nSecret1" 3 =
      { db := DB.empty, st := [], sent := [], replies := [noTargetMsg] } :=
  (C10_missing_target_clears_session 1 DB.empty [(1, sessW10)] sessW10
    "alice\nSecret1" 3 (by decide) (by decide) (by decide) (by decide)).1

end Miamo
